import Mathlib

/-!
Shallow embedding of `src/backend/main.py` (OCR pipeline).

The four external models are black boxes, passed in as function parameters:
`recognize` (pytesseract on a crop), `detect` (layout model), `nlp` (the NER
pipeline) and `render` (the FPDF rendering).  Python strings become `String`,
byte strings become `List Nat` (each element a byte value), floats appearing
only as pass-through confidence scores become `ℚ`.  Where the code counts as
"invoking a black box" we thread an explicit invocation counter, mirroring the
call sites in the source.
-/

/-- Model of Python `str.strip()`: drop leading and trailing whitespace. -/
def pyStrip (s : String) : String :=
  String.mk
    (((s.data.dropWhile Char.isWhitespace).reverse.dropWhile
      Char.isWhitespace).reverse)

/-- Split a character list at every newline character. -/
def splitNl : List Char → List (List Char)
  | [] => [[]]
  | '\n' :: rest => [] :: splitNl rest
  | c :: rest =>
    match splitNl rest with
    | [] => [[c]]
    | l :: ls => (c :: l) :: ls

/-- Model of Python `str.splitlines()` for newline-separated text: splitting on
the newline character, with no trailing empty line when the string ends in a
newline, and no lines at all for the empty string. -/
def pySplitlines (s : String) : List String :=
  if s = "" then []
  else
    let parts := splitNl s.data
    (if s.data.getLast? = some '\n' then parts.dropLast else parts).map
      String.mk

/-- Model of Python `sep.join(list)`. -/
def pyJoin (sep : String) : List String → String
  | [] => ""
  | [s] => s
  | s :: rest => s ++ sep ++ pyJoin sep rest

/-- A layout block as returned by the layout detector (`lp.TesseractLayoutModel`):
`block.type`, the four coordinates `map(int, block.coordinates)` (Tesseract pixel
coordinates, non-negative), and the optional `block.score`. -/
structure Block where
  type : String
  x1 : Nat
  y1 : Nat
  x2 : Nat
  y2 : Nat
  score : Option ℚ
deriving DecidableEq, Repr

/-- One element of the `segments` list built by `extract_layout_text`
(main.py lines 94-101): the dict with keys text, bbox, type, score. -/
structure Segment where
  text : String
  bbox : List Nat
  type : String
  score : Option ℚ
deriving DecidableEq, Repr

/-- The loop of `extract_layout_text` (main.py lines 78-101) over the detected
blocks.  `recognize` is the OCR black box `pytesseract.image_to_string` applied
to the crop `processed_image[y_1:y_2, x_1:x_2]`; the crop's content is
determined by the clamped bounds, so `recognize` receives the clamped
`y1 y2 x1 x2` (numpy slicing clamps a non-negative index to the axis length).
Returns (collected_text, segments, number of recognize invocations).
`h` and `w` are the processed image's height and width. -/
def extractLoop (recognize : Nat → Nat → Nat → Nat → String) (h w : Nat) :
    List Block → List String × List Segment × Nat
  | [] => ([], [], 0)
  | block :: rest =>
    if block.type ≠ "Text" then extractLoop recognize h w rest
    else
      let cy1 := min block.y1 h
      let cy2 := min block.y2 h
      let cx1 := min block.x1 w
      let cx2 := min block.x2 w
      -- crop.size == 0 iff the clamped slice is empty in either axis
      if (cy2 - cy1) * (cx2 - cx1) = 0 then extractLoop recognize h w rest
      else
        let text := recognize cy1 cy2 cx1 cx2
        let cleaned := pyStrip text
        let result := extractLoop recognize h w rest
        if cleaned = "" then (result.1, result.2.1, result.2.2 + 1)
        else
          (cleaned :: result.1,
           { text := cleaned
             bbox := [block.x1, block.y1, block.x2, block.y2]
             type := block.type
             score := block.score } :: result.2.1,
           result.2.2 + 1)

/-- `extract_layout_text` (main.py lines 67-104): returns
`{"text": full_text, "segments": segments}` where
`full_text = "\n".join(collected_text)`; the third component instruments the
number of calls to the recognition black box. -/
def extract_layout_text (recognize : Nat → Nat → Nat → Nat → String) (h w : Nat)
    (layout : List Block) : String × List Segment × Nat :=
  let r := extractLoop recognize h w layout
  (pyJoin "\n" r.1, r.2.1, r.2.2)

/-- The chunk-building loop of `run_biobert_ner` (main.py lines 116-133):
`acc` is `current_chunk`, `n` is `current_length`; emitted chunks are returned
in order, including the final flush of a non-empty accumulator. -/
def chunkLoop (maxLen : Nat) : List String → List String → Nat → List String
  | [], acc, _ => if acc.isEmpty then [] else [pyJoin " " acc]
  | line :: rest, acc, n =>
    let sentence := pyStrip line
    if sentence = "" then chunkLoop maxLen rest acc n
    else if n + sentence.length > maxLen then
      (if acc.isEmpty then [] else [pyJoin " " acc]) ++
        chunkLoop maxLen rest [sentence] sentence.length
    else chunkLoop maxLen rest (acc ++ [sentence]) (n + sentence.length)

/-- The chunking step of `run_biobert_ner` (main.py lines 114-133) as a function
of the input text, with `max_chunk_length = 400`. -/
def chunksOf (text : String) : List String :=
  chunkLoop 400 (pySplitlines text) [] 0

/-- The reference chunking algorithm transcribed from the spec's words
(spec §4.4): iterate the text split into lines; skip blank lines; for each
non-blank line, if `current_length + len(line) > max_length` AND the
accumulator is non-empty, flush the accumulator joined with a single space and
start a new accumulator with this line; otherwise append the line and add its
(raw, unstripped) length; after the loop, flush any non-empty accumulator. -/
def specChunkLoop (maxLen : Nat) : List String → List String → Nat → List String
  | [], acc, _ => if acc.isEmpty then [] else [pyJoin " " acc]
  | line :: rest, acc, n =>
    if pyStrip line = "" then specChunkLoop maxLen rest acc n
    else if n + line.length > maxLen ∧ acc ≠ [] then
      pyJoin " " acc :: specChunkLoop maxLen rest [line] line.length
    else specChunkLoop maxLen rest (acc ++ [line]) (n + line.length)

/-- The spec §4.4 `chunk(full_text, max_length)` reference function. -/
def chunk_spec (text : String) (maxLen : Nat) : List String :=
  specChunkLoop maxLen (pySplitlines text) [] 0

/-- One prediction dict returned by the NER black box; every key may be
absent (`entity.get(...)` in main.py lines 141-145). -/
structure Prediction where
  entity_group : Option String
  score : Option ℚ
  word : Option String
  start : Option Int
  «end» : Option Int
deriving DecidableEq, Repr

/-- One entity dict appended by `run_biobert_ner` (main.py lines 139-147). -/
structure Entity where
  entity : Option String
  score : ℚ
  text : Option String
  start : Int
  «end» : Int
deriving DecidableEq, Repr

/-- The entity dict built from one prediction (main.py lines 140-146):
`score` defaults to 0.0, `start` and `end` default to 0 when the prediction
omits them; `entity_group` and `word` pass through unchanged. -/
def predToEntity (e : Prediction) : Entity :=
  { entity := e.entity_group
    score := e.score.getD 0
    text := e.word
    start := e.start.getD 0
    «end» := e.«end».getD 0 }

/-- `run_biobert_ner` (main.py lines 107-149) with the NER black box `nlp`
passed in; returns the entity list together with the number of `nlp`
invocations (one per chunk).  The guard on line 110 returns before
`get_ner_pipeline()` is reached, so a blank input performs zero invocations. -/
def run_biobert_ner (nlp : String → List Prediction) (text : String) :
    List Entity × Nat :=
  if pyStrip text = "" then ([], 0)
  else
    let chunks := chunksOf text
    (chunks.flatMap fun c => (nlp c).map predToEntity, chunks.length)

/-- The base64 alphabet used by `base64.b64encode`. -/
def b64chars : List Char :=
  "ABCDEFGHIJKLMNOPQRSTUVWXYZabcdefghijklmnopqrstuvwxyz0123456789+/".toList

/-- Character for a 6-bit group. -/
def b64char (n : Nat) : Char := b64chars.getD n 'A'

/-- Standard base64 encoding of a byte list, with `=` padding. -/
def b64encodeList : List Nat → List Char
  | [] => []
  | [a] => [b64char (a / 4), b64char (a % 4 * 16), '=', '=']
  | [a, b] =>
    [b64char (a / 4), b64char (a % 4 * 16 + b / 16), b64char (b % 16 * 4), '=']
  | a :: b :: c :: rest =>
    b64char (a / 4) :: b64char (a % 4 * 16 + b / 16) ::
      b64char (b % 16 * 4 + c / 64) :: b64char (c % 64) :: b64encodeList rest

/-- `base64.b64encode(bytes).decode("ascii")`. -/
def b64encode (bytes : List Nat) : String := String.mk (b64encodeList bytes)

/-- Value of a base64 alphabet character. -/
def b64val (c : Char) : Option Nat := b64chars.indexOf? c

/-- Strict base64 decoding, the inverse of `b64encodeList`. -/
def b64decodeList : List Char → Option (List Nat)
  | [] => some []
  | c1 :: c2 :: c3 :: c4 :: rest =>
    if c4 = '=' then
      if rest = [] then
        if c3 = '=' then do
          let a ← b64val c1
          let b ← b64val c2
          if b % 16 = 0 then some [a * 4 + b / 16] else none
        else do
          let a ← b64val c1
          let b ← b64val c2
          let c ← b64val c3
          if c % 4 = 0 then some [a * 4 + b / 16, b % 16 * 16 + c / 4]
          else none
      else none
    else do
      let a ← b64val c1
      let b ← b64val c2
      let c ← b64val c3
      let d ← b64val c4
      let tail ← b64decodeList rest
      some ((a * 4 + b / 16) :: (b % 16 * 16 + c / 4) :: (c % 4 * 64 + d) ::
        tail)
  | _ => none

/-- Base64 decoding of a string. -/
def b64decode (s : String) : Option (List Nat) := b64decodeList s.data

/-- The lines fed to `pdf.multi_cell`, one per call:
`text.splitlines() or [text]` (main.py line 60). -/
def pdfLines (text : String) : List String :=
  match pySplitlines text with
  | [] => [text]
  | ls => ls

/-- `build_pdf_from_text` (main.py lines 52-64): the FPDF construction,
`multi_cell` calls and `pdf.output(dest="S").encode("latin1")` are the
rendering black box `render`, a function from the fed lines to the PDF byte
string; the function then returns `base64.b64encode(pdf_bytes).decode("ascii")`
-- a base64 string, not the raw bytes. -/
def build_pdf_from_text (render : List String → List Nat) (text : String) :
    String :=
  b64encode (render (pdfLines text))

/-- The JSON response of the `/ocr/` endpoint: either the success payload
(with `pdf_base64` present only for output modes pdf/both) or the uniform
error envelope `{"error": str(exc)}` (main.py lines 168-179). -/
inductive OcrResponse
  | success (text : String) (segments : List Segment)
      (entities : List Entity) (pdf_base64 : Option String)
  | failure (error : String)
deriving DecidableEq, Repr

/-- The body of the `try:` block of `perform_ocr` (main.py lines 159-177) in
the `Except` monad: each stage may raise (modelled as `Except.error` carrying
`str(exc)`).  `α` is the decoded-image type; `decodeImage` covers
`file.read()` + `Image.open(...).convert("RGB")`. -/
def ocr_pipeline {α : Type} (decodeImage : List Nat → Except String α)
    (preprocess : α → Except String α)
    (layoutStage : α → Except String (String × List Segment × Nat))
    (nerStage : String → Except String (List Entity × Nat))
    (pdfStage : String → Except String String)
    (contents : List Nat) (output : String) :
    Except String (String × List Segment × List Entity × Option String) := do
  let image ← decodeImage contents
  let processed ← preprocess image
  let ocr_result ← layoutStage processed
  let full_text := ocr_result.1
  let entities ← nerStage full_text
  let pdf ←
    if output = "pdf" ∨ output = "both" then do
      let p ← pdfStage full_text
      pure (some p)
    else pure none
  pure (full_text, ocr_result.2.1, entities.1, pdf)

/-- `perform_ocr` (main.py lines 152-179): run the pipeline inside the single
top-level `try`/`except`, converting any exception into the
`{"error": str(exc)}` envelope. -/
def perform_ocr {α : Type} (decodeImage : List Nat → Except String α)
    (preprocess : α → Except String α)
    (layoutStage : α → Except String (String × List Segment × Nat))
    (nerStage : String → Except String (List Entity × Nat))
    (pdfStage : String → Except String String)
    (contents : List Nat) (output : String) : OcrResponse :=
  match ocr_pipeline decodeImage preprocess layoutStage nerStage pdfStage
      contents output with
  | .ok (t, segs, ents, pdf) => .success t segs ents pdf
  | .error e => .failure e

/-- The end-to-end pipeline with the concrete stage functions of main.py
plugged in: `detect` is the layout black box, `dims` gives the processed
image's (height, width), `recognize`, `nlp` and `render` are as above, and
`preproc` is the (pure) `preprocess_image`. -/
def process_document {α : Type} (decodeImage : List Nat → Except String α)
    (preproc : α → α) (dims : α → Nat × Nat) (detect : α → List Block)
    (recognize : Nat → Nat → Nat → Nat → String) (nlp : String → List Prediction)
    (render : List String → List Nat)
    (contents : List Nat) (output : String) : OcrResponse :=
  perform_ocr decodeImage (fun i => pure (preproc i))
    (fun i => pure (extract_layout_text recognize (dims i).1 (dims i).2
      (detect i)))
    (fun t => pure (run_biobert_ner nlp t))
    (fun t => pure (build_pdf_from_text render t))
    contents output

/-! ## Helper lemmas -/

/-- In `extract_layout_text`'s loop, the `collected_text` list is exactly the
`text` fields of the accumulated segments, in order. -/
theorem extractLoop_texts (recognize : Nat → Nat → Nat → Nat → String)
    (h w : Nat) (layout : List Block) :
    (extractLoop recognize h w layout).1 =
      (extractLoop recognize h w layout).2.1.map Segment.text := by
  induction layout with
  | nil => simp [extractLoop]
  | cons block rest ih =>
    simp only [extractLoop]
    split
    · exact ih
    · split
      · exact ih
      · split
        · exact ih
        · simp [ih]

/-! ## Claim theorems -/

/-- C1: for every run of `extract_layout_text`, the returned `full_text` equals
the surviving segments' `text` fields joined by a single newline, in the order
the layout detector emitted the blocks (no spatial re-sorting). -/
theorem C1_full_text_is_newline_join_of_segments
    (recognize : Nat → Nat → Nat → Nat → String) (h w : Nat)
    (layout : List Block) :
    (extract_layout_text recognize h w layout).1 =
      pyJoin "\n"
        ((extract_layout_text recognize h w layout).2.1.map Segment.text) := by
  simp [extract_layout_text, extractLoop_texts]

set_option maxRecDepth 100000

/-- C3: the three chunking test vectors: the empty string yields zero chunks; a
single 500-character line yields exactly that line as one untruncated chunk
despite `max_length = 400`; two 300-character lines yield exactly two chunks,
the two lines in order. -/
theorem C3_chunking_test_vectors :
    chunksOf "" = [] ∧
    chunksOf (String.mk (List.replicate 500 'a')) =
      [String.mk (List.replicate 500 'a')] ∧
    chunksOf (String.mk (List.replicate 300 'b' ++
        '\n' :: List.replicate 300 'c')) =
      [String.mk (List.replicate 300 'b'), String.mk (List.replicate 300 'c')]
    := by
  refine ⟨by decide, by decide, by decide⟩

/-- C4: on empty or all-whitespace input, `run_biobert_ner` returns the empty
entity list and performs zero invocations of the NER black box (the `return`
on line 111 precedes both `get_ner_pipeline()` and any `nlp(chunk)` call). -/
theorem C4_blank_input_short_circuits (nlp : String → List Prediction)
    (text : String) (h : pyStrip text = "") :
    run_biobert_ner nlp text = ([], 0) := by
  simp [run_biobert_ner, h]

/-- C4 witness: the all-whitespace input `"   "` returns no entities with zero
NER invocations. -/
theorem C4_blank_input_short_circuits_witness :
    run_biobert_ner (fun _ => [⟨some "X", some 1, some "w", some 2, some 3⟩])
      "   " = ([], 0) :=
  C4_blank_input_short_circuits _ "   " (by decide)

/-- C8: when the detector returns no block of kind `Text`, the recognition
stage yields `full_text = ""`, `segments = []`, and zero invocations of the
recognition black box. -/
theorem C8_no_text_blocks_empty_result
    (recognize : Nat → Nat → Nat → Nat → String) (h w : Nat)
    (layout : List Block) (hnone : ∀ b ∈ layout, b.type ≠ "Text") :
    extract_layout_text recognize h w layout = ("", [], 0) := by
  have loop : extractLoop recognize h w layout = ([], [], 0) := by
    induction layout with
    | nil => simp [extractLoop]
    | cons block rest ih =>
      have hb : block.type ≠ "Text" := hnone block (by simp)
      simp only [extractLoop, if_pos hb]
      exact ih fun b hb2 => hnone b (by simp [hb2])
  simp [extract_layout_text, loop, pyJoin]

/-- C8 witness: a detector output consisting of one non-Text block produces the
empty document with zero recognition calls. -/
theorem C8_no_text_blocks_empty_result_witness :
    extract_layout_text (fun _ _ _ _ => "hello") 100 100
      [⟨"Figure", 0, 0, 50, 50, none⟩] = ("", [], 0) :=
  C8_no_text_blocks_empty_result _ 100 100 _ (by decide)

/-- On a line list whose lines carry no leading or trailing whitespace, the
code's chunk loop and the spec's reference loop agree, given the loop invariant
that an empty accumulator comes with a zero length counter. -/
theorem chunkLoop_eq_specChunkLoop (maxLen : Nat) :
    ∀ (lines : List String) (acc : List String) (n : Nat),
      (∀ l ∈ lines, pyStrip l = l) → (acc = [] → n = 0) →
      chunkLoop maxLen lines acc n = specChunkLoop maxLen lines acc n := by
  intro lines
  induction lines with
  | nil => intro acc n _ _; rfl
  | cons line rest ih =>
    intro acc n hstr hinv
    have hline : pyStrip line = line := hstr line (by simp)
    have hrest : ∀ l ∈ rest, pyStrip l = l := fun l hl => hstr l (by simp [hl])
    simp only [chunkLoop, specChunkLoop, hline]
    by_cases hblank : line = ""
    · simp only [hblank, if_pos rfl]
      exact ih acc n hrest hinv
    · rw [if_neg hblank, if_neg hblank]
      by_cases hover : n + line.length > maxLen
      · rw [if_pos hover]
        rcases Decidable.em (acc = []) with hacc | hacc
        · have hn : n = 0 := hinv hacc
          subst hacc
          subst hn
          simpa using ih [line] line.length hrest (by simp)
        · have hisE : acc.isEmpty = false := by
            cases acc with
            | nil => exact absurd rfl hacc
            | cons a as => rfl
          simp [hisE, hover, hacc, ih [line] line.length hrest (by simp)]
      · rw [if_neg hover]
        rw [if_neg (by intro hc; exact hover hc.1)]
        exact ih (acc ++ [line]) (n + line.length) hrest (by simp)

/-- C2 counterexample: on the single line `" a"` (leading space) the code's
chunking strips the line before measuring and accumulating it, while the
spec's reference algorithm keeps the raw line; the two outputs differ. -/
theorem C2_counterexample :
    chunksOf " a" = ["a"] ∧ chunk_spec " a" 400 = [" a"] ∧
      chunksOf " a" ≠ chunk_spec " a" 400 := by
  refine ⟨by decide, by decide, by decide⟩

/-- C2 (amended): for every text whose lines carry no leading or trailing
whitespace, the chunking step of `run_biobert_ner` computes exactly the
sequence produced by the spec's reference algorithm with `max_length = 400`;
in general the code additionally strips each line before measuring and
accumulating it. -/
theorem C2_chunking_matches_spec_on_stripped_lines (text : String)
    (h : ∀ l ∈ pySplitlines text, pyStrip l = l) :
    chunksOf text = chunk_spec text 400 :=
  chunkLoop_eq_specChunkLoop 400 (pySplitlines text) [] 0 h (fun _ => rfl)

/-- C2 witness: a two-line text with no surrounding whitespace on its lines,
chunked identically by the code and the reference algorithm. -/
theorem C2_chunking_matches_spec_witness :
    chunksOf "ab\ncd" = chunk_spec "ab\ncd" 400 :=
  C2_chunking_matches_spec_on_stripped_lines "ab\ncd" (by decide)

/-- C7 counterexample: on a 10x10 processed image, a Text block with
coordinates (0, 0, 20, 20) survives (numpy clamps the crop to the image, so
the crop is non-empty), yet the stored bounding box keeps the raw coordinates
x2 = y2 = 20, which exceed the image bounds (width = height = 10).  The claim
that stored coordinates always lie within the image bounds is therefore false.
-/
theorem C7_counterexample :
    (extract_layout_text (fun _ _ _ _ => "hi") 10 10
        [⟨"Text", 0, 0, 20, 20, none⟩]).2.1 =
      [⟨"hi", [0, 0, 20, 20], "Text", none⟩] ∧ 10 < 20 := by
  refine ⟨by decide, by decide⟩

/-- C7 (amended): every segment emitted by `extract_layout_text` has non-empty
text and a bounding box `[x1, y1, x2, y2]` with `x1 < x2`, `y1 < y2`, and the
top-left corner strictly inside the image (`x1 < w`, `y1 < h`); `x2` and `y2`
may exceed the image bounds, because the crop is clamped but the stored
coordinates are not. -/
theorem C7_segment_invariants (recognize : Nat → Nat → Nat → Nat → String)
    (h w : Nat) (layout : List Block) (seg : Segment)
    (hmem : seg ∈ (extract_layout_text recognize h w layout).2.1) :
    seg.text ≠ "" ∧
    seg.bbox.getD 0 0 < seg.bbox.getD 2 0 ∧
    seg.bbox.getD 1 0 < seg.bbox.getD 3 0 ∧
    seg.bbox.getD 0 0 < w ∧
    seg.bbox.getD 1 0 < h := by
  simp only [extract_layout_text] at hmem
  induction layout with
  | nil => simp [extractLoop] at hmem
  | cons block rest ih =>
    simp only [extractLoop] at hmem
    by_cases htype : block.type ≠ "Text"
    · rw [if_pos htype] at hmem
      exact ih hmem
    · rw [if_neg htype] at hmem
      by_cases hcrop :
          (min block.y2 h - min block.y1 h) *
            (min block.x2 w - min block.x1 w) = 0
      · rw [if_pos hcrop] at hmem
        exact ih hmem
      · rw [if_neg hcrop] at hmem
        by_cases hclean : pyStrip (recognize (min block.y1 h) (min block.y2 h)
            (min block.x1 w) (min block.x2 w)) = ""
        · rw [if_pos hclean] at hmem
          exact ih hmem
        · rw [if_neg hclean] at hmem
          rcases List.mem_cons.mp hmem with hseg | hseg
          · subst hseg
            have h1 : min block.y2 h - min block.y1 h ≠ 0 := by
              intro e
              exact hcrop (by rw [e, Nat.zero_mul])
            have h2 : min block.x2 w - min block.x1 w ≠ 0 := by
              intro e
              exact hcrop (by rw [e, Nat.mul_zero])
            refine ⟨hclean, ?_, ?_, ?_, ?_⟩ <;> simp <;> omega
          · exact ih hseg

/-- C7 witness: a concrete in-bounds Text block whose recognized text is
non-blank produces a segment satisfying the amended invariants. -/
theorem C7_segment_invariants_witness :
    ("hi" : String) ≠ "" ∧
    ([0, 0, 5, 5] : List Nat).getD 0 0 < ([0, 0, 5, 5] : List Nat).getD 2 0 ∧
    ([0, 0, 5, 5] : List Nat).getD 1 0 < ([0, 0, 5, 5] : List Nat).getD 3 0 ∧
    ([0, 0, 5, 5] : List Nat).getD 0 0 < 10 ∧
    ([0, 0, 5, 5] : List Nat).getD 1 0 < 10 :=
  C7_segment_invariants (fun _ _ _ _ => "hi") 10 10
    [⟨"Text", 0, 0, 5, 5, none⟩] ⟨"hi", [0, 0, 5, 5], "Text", none⟩ (by decide)

/-- C10: every prediction the NER black box returns on some chunk of a
non-blank text is emitted by `run_biobert_ner` as a totally defined entity,
with a missing score defaulting to 0, and missing start and end offsets
defaulting to 0; extraction never fails on a partially populated prediction.
-/
theorem C10_missing_keys_default (nlp : String → List Prediction)
    (text : String) (c : String) (p : Prediction)
    (hblank : pyStrip text ≠ "") (hc : c ∈ chunksOf text) (hp : p ∈ nlp c)
    (hscore : p.score = none) (hstart : p.start = none)
    (hend : p.«end» = none) :
    predToEntity p ∈ (run_biobert_ner nlp text).1 ∧
    (predToEntity p).score = 0 ∧ (predToEntity p).start = 0 ∧
    (predToEntity p).«end» = 0 := by
  refine ⟨?_, by simp [predToEntity, hscore], by simp [predToEntity, hstart],
    by simp [predToEntity, hend]⟩
  simp only [run_biobert_ner, if_neg hblank, List.mem_flatMap]
  exact ⟨c, hc, List.mem_map_of_mem _ hp⟩

/-- C10 witness: a black box returning a prediction with every key absent
still yields a well-defined entity with score 0, start 0 and end 0. -/
theorem C10_missing_keys_default_witness :
    predToEntity ⟨none, none, none, none, none⟩ ∈
      (run_biobert_ner (fun _ => [⟨none, none, none, none, none⟩]) "x").1 ∧
    (predToEntity ⟨none, none, none, none, none⟩).score = 0 ∧
    (predToEntity ⟨none, none, none, none, none⟩).start = 0 ∧
    (predToEntity ⟨none, none, none, none, none⟩).«end» = 0 :=
  C10_missing_keys_default (fun _ => [⟨none, none, none, none, none⟩]) "x" "x"
    ⟨none, none, none, none, none⟩ (by decide) (by decide) (by decide)
    rfl rfl rfl

/-- C5: whenever any stage of the pipeline raises (decode, preprocessing,
layout/recognition, chunking/NER, or export), `perform_ocr` returns exactly
the uniform envelope `{"error": <message>}`; by construction of `OcrResponse`
the failure constructor carries no text, segments, entities or pdf_base64
field, so no partial output escapes. -/
theorem C5_all_or_nothing_error_envelope {α : Type}
    (decodeImage : List Nat → Except String α)
    (preprocess : α → Except String α)
    (layoutStage : α → Except String (String × List Segment × Nat))
    (nerStage : String → Except String (List Entity × Nat))
    (pdfStage : String → Except String String)
    (contents : List Nat) (output : String) (m : String)
    (herr : ocr_pipeline decodeImage preprocess layoutStage nerStage pdfStage
      contents output = .error m) :
    perform_ocr decodeImage preprocess layoutStage nerStage pdfStage
      contents output = .failure m := by
  simp [perform_ocr, herr]

/-- C5 witness: a decode failure surfaces as the uniform error envelope. -/
theorem C5_all_or_nothing_error_envelope_witness :
    perform_ocr (α := Unit) (fun _ => .error "cannot identify image file")
      (fun i => pure i) (fun _ => pure ("", [], 0)) (fun _ => pure ([], 0))
      (fun _ => pure "") [0, 1, 2] "text" =
      .failure "cannot identify image file" :=
  C5_all_or_nothing_error_envelope (α := Unit)
    (fun _ => .error "cannot identify image file") (fun i => pure i)
    (fun _ => pure ("", [], 0)) (fun _ => pure ([], 0)) (fun _ => pure "")
    [0, 1, 2] "text" "cannot identify image file" rfl

/-- C9: with the four black boxes fixed to (deterministic) functions, the
end-to-end pipeline is a pure function of its inputs: two invocations with
identical input bytes and identical output-mode flag produce identical
results. -/
theorem C9_pipeline_deterministic {α : Type}
    (decodeImage : List Nat → Except String α) (preproc : α → α)
    (dims : α → Nat × Nat) (detect : α → List Block)
    (recognize : Nat → Nat → Nat → Nat → String)
    (nlp : String → List Prediction) (render : List String → List Nat)
    (contents contents' : List Nat) (output output' : String)
    (hc : contents = contents') (ho : output = output') :
    process_document decodeImage preproc dims detect recognize nlp render
        contents output =
      process_document decodeImage preproc dims detect recognize nlp render
        contents' output' := by
  rw [hc, ho]

/-- C9 witness: a concrete double invocation on the same bytes and mode gives
the same response. -/
theorem C9_pipeline_deterministic_witness :
    process_document (α := Unit) (fun _ => .ok ()) id (fun _ => (10, 10))
        (fun _ => [⟨"Text", 0, 0, 5, 5, none⟩]) (fun _ _ _ _ => "hi")
        (fun _ => []) (fun _ => [77, 90]) [7] "both" =
      process_document (α := Unit) (fun _ => .ok ()) id (fun _ => (10, 10))
        (fun _ => [⟨"Text", 0, 0, 5, 5, none⟩]) (fun _ _ _ _ => "hi")
        (fun _ => []) (fun _ => [77, 90]) [7] "both" :=
  C9_pipeline_deterministic (α := Unit) (fun _ => .ok ()) id (fun _ => (10, 10))
    (fun _ => [⟨"Text", 0, 0, 5, 5, none⟩]) (fun _ _ _ _ => "hi")
    (fun _ => []) (fun _ => [77, 90]) [7] [7] "both" "both" rfl rfl

/-- The base64 alphabet decodes its own characters. -/
theorem b64val_b64char : ∀ n < 64, b64val (b64char n) = some n := by decide

/-- No base64 alphabet character is the padding character. -/
theorem b64char_ne_pad : ∀ n < 64, b64char n ≠ '=' := by decide


/-- Strict base64 decoding inverts encoding on byte lists. -/
theorem b64_roundtrip :
    ∀ l : List Nat, (∀ x ∈ l, x < 256) → b64decodeList (b64encodeList l) =
      some l
  | [], _ => by simp [b64encodeList, b64decodeList]
  | [a], h => by
    have ha : a < 256 := h a (by simp)
    have v1 := b64val_b64char (a / 4) (by omega)
    have v2 := b64val_b64char (a % 4 * 16) (by omega)
    simp only [b64encodeList, b64decodeList, if_true, v1, v2]
    show (if a % 4 * 16 % 16 = 0 then some [a / 4 * 4 + a % 4 * 16 / 16]
      else none) = some [a]
    have e1 : a / 4 * 4 + a % 4 * 16 / 16 = a := by omega
    rw [if_pos (by omega : a % 4 * 16 % 16 = 0), e1]
  | [a, b], h => by
    have ha : a < 256 := h a (by simp)
    have hb : b < 256 := h b (by simp)
    have v1 := b64val_b64char (a / 4) (by omega)
    have v2 := b64val_b64char (a % 4 * 16 + b / 16) (by omega)
    have v3 := b64val_b64char (b % 16 * 4) (by omega)
    have ne3 := b64char_ne_pad (b % 16 * 4) (by omega)
    simp only [b64encodeList, b64decodeList, if_true, if_neg ne3, v1, v2, v3]
    show (if b % 16 * 4 % 4 = 0 then
        some [a / 4 * 4 + (a % 4 * 16 + b / 16) / 16,
          (a % 4 * 16 + b / 16) % 16 * 16 + b % 16 * 4 / 4]
      else none) = some [a, b]
    have e1 : a / 4 * 4 + (a % 4 * 16 + b / 16) / 16 = a := by omega
    have e2 : (a % 4 * 16 + b / 16) % 16 * 16 + b % 16 * 4 / 4 = b := by omega
    rw [if_pos (by omega : b % 16 * 4 % 4 = 0), e1, e2]
  | a :: b :: c :: rest, h => by
    have ha : a < 256 := h a (by simp)
    have hb : b < 256 := h b (by simp)
    have hc : c < 256 := h c (by simp)
    have ih := b64_roundtrip rest fun x hx => h x (by simp [hx])
    have v1 := b64val_b64char (a / 4) (by omega)
    have v2 := b64val_b64char (a % 4 * 16 + b / 16) (by omega)
    have v3 := b64val_b64char (b % 16 * 4 + c / 64) (by omega)
    have v4 := b64val_b64char (c % 64) (by omega)
    have ne4 := b64char_ne_pad (c % 64) (by omega)
    simp only [b64encodeList, b64decodeList, if_neg ne4, v1, v2, v3, v4, ih]
    show some ((a / 4 * 4 + (a % 4 * 16 + b / 16) / 16) ::
        ((a % 4 * 16 + b / 16) % 16 * 16 + (b % 16 * 4 + c / 64) / 4) ::
        ((b % 16 * 4 + c / 64) % 4 * 64 + c % 64) :: rest) =
      some (a :: b :: c :: rest)
    have e1 : a / 4 * 4 + (a % 4 * 16 + b / 16) / 16 = a := by omega
    have e2 : (a % 4 * 16 + b / 16) % 16 * 16 + (b % 16 * 4 + c / 64) / 4 = b
      := by omega
    have e3 : (b % 16 * 4 + c / 64) % 4 * 64 + c % 64 = c := by omega
    rw [e1, e2, e3]

/-- C6 counterexample: `build_pdf_from_text` does not return the rendered
document as raw bytes -- it returns the base64 encoding as a string.  With a
rendering black box producing the two bytes [77, 90], the function returns the
four-character base64 string "TVo=", not the two-byte content, and the
transport layer (`perform_ocr`, via `process_document`) inserts that string
into `pdf_base64` unchanged, performing no encoding of its own. -/
theorem C6_counterexample :
    build_pdf_from_text (fun _ => [77, 90]) "hi" = "TVo=" ∧
    "TVo=" ≠ String.mk [Char.ofNat 77, Char.ofNat 90] ∧
    b64decode "TVo=" = some [77, 90] ∧
    process_document (α := Unit) (fun _ => .ok ()) id (fun _ => (0, 0))
        (fun _ => []) (fun _ _ _ _ => "") (fun _ => [])
        (fun _ => [77, 90]) [1] "pdf" =
      .success "" [] [] (some "TVo=") := by
  refine ⟨by decide, by decide, by decide, by decide⟩

/-- C6 (amended): `build_pdf_from_text` returns the rendered document's bytes
base64-encoded as an ASCII string (decoding the returned string yields exactly
the bytes produced by the rendering black box on the lines fed to
`multi_cell`); the transport layer performs no further encoding. -/
theorem C6_export_returns_base64_of_rendered_bytes
    (render : List String → List Nat) (text : String)
    (hbytes : ∀ x ∈ render (pdfLines text), x < 256) :
    b64decode (build_pdf_from_text render text) =
      some (render (pdfLines text)) := by
  unfold b64decode build_pdf_from_text b64encode
  exact b64_roundtrip (render (pdfLines text)) hbytes

/-- C6 witness: decoding the export of a concrete two-byte rendering recovers
the rendered bytes. -/
theorem C6_export_returns_base64_witness :
    b64decode (build_pdf_from_text (fun _ => [77, 90]) "hi") =
      some ((fun _ => [77, 90]) (pdfLines "hi")) :=
  C6_export_returns_base64_of_rendered_bytes (fun _ => [77, 90]) "hi"
    (by decide)
